import Mathlib

/-!
Shallow embedding of the RGW multi-zone data-sync engine
(`src/rgw/rgw_data_sync.cc`) and proofs about its behaviour.

Each definition mirrors a function or coroutine of the source file; line
numbers in the doc comments refer to that file.  Coroutine `operate()`
bodies are embedded as pure functions from their inputs (including the
outcomes of the external I/O calls they make) to the list of calls they
emit plus their terminal result.  External I/O primitives (HTTP reads,
rados reads/writes, lock/unlock, fetch/remove of objects) are recorded as
events; the error-return guards that follow a `call` in the source are
reproduced by threading the call outcome explicitly.
-/

namespace RgwDataSync

/-! ## Basic data model -/

/-- POSIX `ENOENT` error number, as used by the source (`-ENOENT`). -/
def ENOENT : Int := 2

/-- POSIX `EIO` error number (the name avoids the bare `EIO`, which
collides with a core type). -/
def EIO_errno : Int := 5

/-- POSIX `EINVAL` error number. -/
def EINVAL : Int := 22

/-- `rgw_obj_key`: object name plus version instance.  The C++ field
`instance` is a Lean keyword, so it is named `inst` here. -/
structure rgw_obj_key where
  name : String
  inst : String
deriving DecidableEq, Repr

/-- `RGWModifyOp` values used by the sync engine (`cls_rgw` op codes);
`OTHER` stands for any op code that is none of the three the engine
dispatches on. -/
inductive RGWModifyOp where
  | CLS_RGW_OP_ADD
  | CLS_RGW_OP_LINK_OLH
  | CLS_RGW_OP_DEL
  | OTHER
deriving DecidableEq, Repr

/-! ## The datalog-shard marker tracker (`RGWDataSyncShardMarkerTrack`,
lines 605-677)

The tracker state is the three containers of the class: the
`key_to_marker` / `marker_to_key` association maps and the
`need_retry_set`.  Association maps are embedded as association lists
(insertion does not overwrite, matching `std::map::operator[]` only being
called on fresh keys in the source path we model). -/

/-- Lookup in an association list, mirroring `std::map::find`. -/
def alistFind (m : List (String × String)) (k : String) : Option String :=
  match m with
  | [] => none
  | (k₁, v₁) :: rest => if k₁ = k then some v₁ else alistFind rest k

/-- State of `RGWDataSyncShardMarkerTrack` (lines 614-616). -/
structure RGWDataSyncShardMarkerTrack where
  key_to_marker : List (String × String)
  marker_to_key : List (String × String)
  need_retry_set : List String
deriving DecidableEq, Repr

/-- The tracker as freshly constructed (all containers empty). -/
def emptyTrack : RGWDataSyncShardMarkerTrack := ⟨[], [], []⟩

/-- `index_key_to_marker(key, marker)` (lines 653-661): if `key` already
has an entry in `key_to_marker`, add `key` to the retry set and return
`false`; otherwise record `key ↦ marker` and `marker ↦ key` and return
`true`. -/
def index_key_to_marker (t : RGWDataSyncShardMarkerTrack) (key marker : String) :
    Bool × RGWDataSyncShardMarkerTrack :=
  if (alistFind t.key_to_marker key).isSome then
    (false, { t with need_retry_set := key :: t.need_retry_set })
  else
    (true, { t with key_to_marker := (key, marker) :: t.key_to_marker,
                    marker_to_key := (marker, key) :: t.marker_to_key })

/-- `need_retry(key)` (lines 670-672). -/
def need_retry (t : RGWDataSyncShardMarkerTrack) (key : String) : Bool :=
  t.need_retry_set.contains key

/-- `reset_need_retry(key)` (lines 674-676). -/
def reset_need_retry (t : RGWDataSyncShardMarkerTrack) (key : String) :
    RGWDataSyncShardMarkerTrack :=
  { t with need_retry_set := t.need_retry_set.filter (fun k => k ≠ key) }

/-- `handle_finish(marker)` (lines 618-626): look the marker up in
`marker_to_key`; when absent, return unchanged; otherwise erase the
`key_to_marker` binding for the found key, the `marker_to_key` binding,
and the retry flag (the source erases `need_retry_set.erase(marker)`,
i.e. keyed by the *marker*, exactly as written). -/
def handle_finish (t : RGWDataSyncShardMarkerTrack) (marker : String) :
    RGWDataSyncShardMarkerTrack :=
  match alistFind t.marker_to_key marker with
  | none => t
  | some key =>
      { key_to_marker := t.key_to_marker.filter (fun p => p.1 ≠ key),
        marker_to_key := t.marker_to_key.filter (fun p => p.1 ≠ marker),
        need_retry_set := t.need_retry_set.filter (fun k => k ≠ marker) }

/-! ## Datalog entries and the incremental-sync dispatch loop
(`RGWDataSyncShardCR::incremental_sync`, lines 933-989) -/

/-- `rgw_data_change`: the payload of a datalog entry (only the bucket
shard `key` is consumed by the sync engine). -/
structure rgw_data_change where
  key : String
deriving DecidableEq, Repr

/-- `rgw_data_change_log_entry`: a remote datalog entry. Timestamps are
modelled as naturals (seconds); their value is never inspected by the
logic under proof. -/
structure rgw_data_change_log_entry where
  log_id : String
  log_timestamp : Nat
  entry : rgw_data_change
deriving DecidableEq, Repr

/-- A spawned `RGWDataSyncSingleEntryCR` worker: the constructor
arguments `raw_key` and `entry_marker` it was given (line 975). -/
structure SpawnedEntry where
  raw_key : String
  entry_marker : String
deriving DecidableEq, Repr

/-- One page of the incremental-sync entry loop (lines 968-979): for each
log entry, call `index_key_to_marker(log_iter->log_id,
log_iter->entry.key)` — note the source passes the *log id* as the `key`
argument and the bucket-shard key as the `marker` argument — skip the
entry when it returns false, otherwise `start` the marker and spawn a
single-entry worker with `raw_key = entry.key`, `entry_marker = log_id`.
Returns the final tracker state, the spawned workers in order, and the
list of results of the `index_key_to_marker` consultations in order. -/
def incremental_sync_dispatch (t : RGWDataSyncShardMarkerTrack)
    (log_entries : List rgw_data_change_log_entry) :
    RGWDataSyncShardMarkerTrack × List SpawnedEntry × List Bool :=
  match log_entries with
  | [] => (t, [], [])
  | e :: rest =>
      let r := index_key_to_marker t e.log_id e.entry.key
      if r.1 then
        let (t₂, spawned, consults) := incremental_sync_dispatch r.2 rest
        (t₂, ⟨e.entry.key, e.log_id⟩ :: spawned, true :: consults)
      else
        let (t₂, spawned, consults) := incremental_sync_dispatch r.2 rest
        (t₂, spawned, false :: consults)

/-! ## Bucket single-entry sync (`RGWBucketSyncSingleEntryCR<T>::operate`,
lines 1805-1855)

The worker makes up to two external calls: an object-transfer primitive
(fetch or remove) and the marker tracker's `finish` on its entry marker.
Both are recorded as events.  The outcomes of the transfer call and of
the finish call are inputs (`transfer_ret`, `finish_ret`); the immediate
return value of `call(...)` itself is 0, as the source's `if (r < 0)`
branches only fire on spawn failure. -/

/-- External call made by a bucket single-entry worker; `T` is the entry
marker type (object key for full sync, log id string for incremental). -/
inductive BucketSyncCall (T : Type) where
  | FetchRemoteObj (key : rgw_obj_key) (versioned_epoch : Nat)
  | RemoveObj (key : rgw_obj_key) (versioned_epoch : Nat)
  | FinishMarker (entry_marker : T)
deriving DecidableEq, Repr

/-- `RGWBucketSyncSingleEntryCR<T>::operate` (lines 1805-1855).
Inputs: the constructor arguments `op`, `key`, `versioned_epoch`,
`entry_marker`, plus the outcome `transfer_ret` delivered by the
fetch/remove call and `finish_ret` delivered by the finish call.
Output: the calls emitted in order and the terminal coroutine result
(`.ok` for `set_cr_done`, `.error e` for `set_cr_error(e)`). -/
def bucketSyncSingleEntry_operate {T : Type} (op : RGWModifyOp) (key : rgw_obj_key)
    (versioned_epoch : Nat) (entry_marker : T) (transfer_ret finish_ret : Int) :
    List (BucketSyncCall T) × Except Int Unit :=
  -- first yield block (lines 1807-1831)
  if op = RGWModifyOp.CLS_RGW_OP_ADD ∧ key.inst ≠ "" ∧ key.inst ≠ "null" then
    -- lines 1811-1814: skip versioned-object add; `return set_cr_done()`
    ([], Except.ok ())
  else
    let first :
        List (BucketSyncCall T) × Int :=
      if op = RGWModifyOp.CLS_RGW_OP_ADD ∨ op = RGWModifyOp.CLS_RGW_OP_LINK_OLH then
        ([BucketSyncCall.FetchRemoteObj key versioned_epoch], transfer_ret)
      else if op = RGWModifyOp.CLS_RGW_OP_DEL then
        ([BucketSyncCall.RemoveObj key versioned_epoch], transfer_ret)
      else
        ([], 0)
    let retcode := first.2
    -- lines 1832-1836
    let sync_status : Int := if retcode < 0 ∧ retcode ≠ -ENOENT then retcode else 0
    -- finish yield (lines 1837-1844); then lines 1845-1851
    let calls := first.1 ++ [BucketSyncCall.FinishMarker entry_marker]
    let retcode₂ := finish_ret
    let sync_status₂ := if sync_status = 0 then retcode₂ else sync_status
    if sync_status₂ < 0 then
      (calls, Except.error sync_status₂)
    else
      (calls, Except.ok ())

/-! ## Bucket incremental-sync per-entry dispatch
(`RGWBucketShardIncrementalSyncCR::operate`, lines 2034-2047) -/

/-- `rgw_bucket_entry_ver`: placement pool and versioned epoch of a
bucket-index-log entry. -/
structure rgw_bucket_entry_ver where
  pool : Int
  epoch : Nat
deriving DecidableEq, Repr

/-- `rgw_bi_log_entry`: a remote bucket-index-log entry as consumed by
the incremental loop (fields read at lines 2036-2046).  The C++ field
`instance` is named `inst` here. -/
structure rgw_bi_log_entry where
  id : String
  object : String
  inst : String
  timestamp : Nat
  op : RGWModifyOp
  ver : rgw_bucket_entry_ver
deriving DecidableEq, Repr

/-- Constructor arguments of the `RGWBucketSyncSingleEntryCR<string>`
spawned for one bucket-index-log entry. -/
structure IncSyncSpawned where
  key : rgw_obj_key
  versioned_epoch : Nat
  op : RGWModifyOp
  entry_marker : String
deriving DecidableEq, Repr

/-- Per-entry dispatch of the bucket incremental sync loop (lines
2035-2046): build `key = (object, instance)`, compute `versioned_epoch =
ver.epoch` when `ver.pool < 0` else 0, and spawn the single-entry worker
with `entry_marker = entry.id` and `op = entry.op`. -/
def incSyncDispatchEntry (e : rgw_bi_log_entry) : IncSyncSpawned :=
  { key := ⟨e.object, e.inst⟩,
    versioned_epoch := if e.ver.pool < 0 then e.ver.epoch else 0,
    op := e.op,
    entry_marker := e.id }

/-- First datalog entry of the C1 scenario: bucket shard `b1:A:0` at log
position `1_100.1`. -/
def c1_entry1 : rgw_data_change_log_entry := ⟨"1_100.1", 0, ⟨"b1:A:0"⟩⟩

/-- Second datalog entry of the C1 scenario: the *same* bucket shard
`b1:A:0` at the later log position `1_100.2`. -/
def c1_entry2 : rgw_data_change_log_entry := ⟨"1_100.2", 0, ⟨"b1:A:0"⟩⟩

/-! ## Datalog key parsing and the single-entry dispatcher
(`parse_bucket_shard`, lines 705-724, and
`RGWDataSyncSingleEntryCR::operate`, lines 758-797) -/

/-- Index of the first occurrence of a character in a character list,
mirroring `std::string::find`. -/
def charFindIdx (cs : List Char) (t : Char) : Option Nat :=
  match cs with
  | [] => none
  | c :: rest => if c = t then some 0 else (charFindIdx rest t).map (· + 1)

/-- Accumulate the decimal value of a digit string; `none` as soon as a
non-digit is met (the `strict_strtol` error case). -/
def digitsVal (cs : List Char) (acc : Nat) : Option Nat :=
  match cs with
  | [] => some acc
  | c :: rest => if c.isDigit then digitsVal rest (acc * 10 + (c.toNat - 48)) else none

/-- `strict_strtol(s, 10, &err)`: parse a base-10 integer with optional
sign; `none` means `err` is non-empty (no digits, or trailing
non-digits).  Leading whitespace tolerated by the underlying `strtol` is
not modelled; no proof below depends on whitespace inputs. -/
def strict_strtol (s : String) : Option Int :=
  match s.toList with
  | [] => none
  | c :: rest =>
      if c = Char.ofNat 45 then (digitsVal rest 0).map (fun n => -(n : Int))
      else if c = Char.ofNat 43 then (digitsVal rest 0).map (fun n => (n : Int))
      else (digitsVal (c :: rest) 0).map (fun n => (n : Int))

/-- `parse_bucket_shard` (lines 705-724): split `raw_key` of the form
`bucket[:bucket_id[:shard_id]]` into its components; `shard_id = -1` when
unsharded; `-EINVAL` when the shard-id suffix is not an integer.  When
the first colon is absent the source computes `pos = npos` (which is `-1`
as `ssize_t`), so `substr(0, npos)` and `substr(pos + 1) = substr(0)`
both give back the whole string; the embedding reproduces this. -/
def parse_bucket_shard (raw_key : String) :
    Except Int (String × String × Int) :=
  let cs := raw_key.toList
  let bucket_name :=
    match charFindIdx cs (Char.ofNat 58) with
    | none => raw_key
    | some p => String.mk (cs.take p)
  let bi₀ : List Char :=
    match charFindIdx cs (Char.ofNat 58) with
    | none => cs
    | some p => cs.drop (p + 1)
  match charFindIdx bi₀ (Char.ofNat 58) with
  | none => Except.ok (bucket_name, String.mk bi₀, -1)
  | some q =>
      match strict_strtol (String.mk (bi₀.drop (q + 1))) with
      | none => Except.error (-EINVAL)
      | some n => Except.ok (bucket_name, String.mk (bi₀.take q), n)

/-- External call made by a datalog single-entry dispatcher. -/
inductive DataSyncCall where
  | RunBucketSync (bucket_name bucket_instance : String) (shard_id : Int)
  | FinishMarker (entry_marker : String)
deriving DecidableEq, Repr

/-- `RGWDataSyncSingleEntryCR::operate` (lines 758-797).  On a parse
failure of `raw_key` the source drops the entry and signals
`set_cr_error(-EIO)` (line 765) — note: *not* the `-EINVAL` that
`parse_bucket_shard` itself returned.  Otherwise it resets the retry
flag, calls `RGWRunBucketSyncCoroutine` (outcome `bucket_sync_ret`), and
— when `entry_marker` is non-empty — calls `marker_tracker->finish`
(outcome `finish_ret`).  The `do/while (need_retry(raw_key))` guard
re-runs the body only if the key was re-flagged while in flight; in this
sequential embedding nothing re-inserts the key after the reset, so the
body runs once.  On `sync_status < 0` the source signals
`set_cr_error(retcode)` (line 792), `retcode` being the outcome of the
last call. -/
def dataSyncSingleEntry_operate (raw_key entry_marker : String)
    (bucket_sync_ret finish_ret : Int) :
    List DataSyncCall × Except Int Unit :=
  match parse_bucket_shard raw_key with
  | Except.error _ => ([], Except.error (-EIO_errno))
  | Except.ok (bn, bi, sid) =>
      let sync_status := bucket_sync_ret
      let second :
          List DataSyncCall × Int :=
        if entry_marker ≠ "" then
          ([DataSyncCall.RunBucketSync bn bi sid,
            DataSyncCall.FinishMarker entry_marker], finish_ret)
        else
          ([DataSyncCall.RunBucketSync bn bi sid], bucket_sync_ret)
      let retcode := second.2
      let sync_status₂ := if sync_status = 0 then retcode else sync_status
      if sync_status₂ < 0 then (second.1, Except.error retcode)
      else (second.1, Except.ok ())

/-! ## Zone sync-status initialization
(`RGWInitDataSyncStatusCoroutine`, lines 239-335) -/

/-- `rgw_data_sync_info::SyncState`: the zone-level sync states. -/
inductive ZoneSyncState where
  | StateInit
  | StateBuildingFullSyncMaps
  | StateSync
deriving DecidableEq, Repr

/-- `RGWDataChangesLogInfo`: remote datalog shard head info. -/
structure RGWDataChangesLogInfo where
  marker : String
  last_update : Nat
deriving DecidableEq, Repr

/-- `RGWDataSyncStatusManager::sync_status_oid` (lines 1201-1207). -/
def sync_status_oid (source_zone : String) : String :=
  "datalog.sync-status." ++ source_zone

/-- Members of `RGWInitDataSyncStatusCoroutine` relevant to locking
(lines 246-251). -/
structure RGWInitDataSyncStatusCoroutineState where
  lock_name : String
  cookie : String
  num_shards : Nat
  sync_status_oid : String
deriving DecidableEq, Repr

/-- Constructor of `RGWInitDataSyncStatusCoroutine` (lines 253-267).
`rand16` is the 16-character string produced by
`gen_rand_alphanumeric(cct, buf, sizeof(buf) - 1)`.  Line 264 reads
`string cookie = buf;` — this declares a NEW LOCAL variable that shadows
the member `cookie`, so the member keeps its default-constructed empty
value; the embedding reproduces this. -/
def mkRGWInitDataSyncStatusCoroutine (source_zone : String) (num_shards : Nat)
    (rand16 : String) : RGWInitDataSyncStatusCoroutineState :=
  let _cookie_local := rand16
  { lock_name := "sync_lock", cookie := "", num_shards := num_shards,
    sync_status_oid := sync_status_oid source_zone }

/-- External operation performed by the zone-init coroutine. -/
inductive ZoneInitEvent where
  | Lock (oid lock_name cookie : String) (duration : Nat)
  | WriteStatus (oid : String) (state : ZoneSyncState) (num_shards : Nat)
  | ReadRemoteShardInfo (shard_id : Nat)
  | WriteShardMarker (shard_id : Nat) (next_step_marker : String) (timestamp : Nat)
  | Unlock (oid lock_name cookie : String)
deriving DecidableEq, Repr

/-- `RGWInitDataSyncStatusCoroutine::operate` (lines 269-334), success
path: lock (30 s) with the member cookie, write the status object,
re-lock (the write recreated the object), read every remote shard head,
write each per-shard marker with `next_step_marker = info.marker` and
`timestamp = info.last_update`, set state to `BuildingFullSyncMaps` and
write the status again, unlock.  `shards_info i` is the remote head
returned for shard `i`. -/
def initDataSyncStatus_operate (st : RGWInitDataSyncStatusCoroutineState)
    (shards_info : Nat → RGWDataChangesLogInfo) : List ZoneInitEvent :=
  [ZoneInitEvent.Lock st.sync_status_oid st.lock_name st.cookie 30,
   ZoneInitEvent.WriteStatus st.sync_status_oid ZoneSyncState.StateInit st.num_shards,
   ZoneInitEvent.Lock st.sync_status_oid st.lock_name st.cookie 30]
  ++ (List.range st.num_shards).map (fun i => ZoneInitEvent.ReadRemoteShardInfo i)
  ++ (List.range st.num_shards).map (fun i =>
        ZoneInitEvent.WriteShardMarker i (shards_info i).marker (shards_info i).last_update)
  ++ [ZoneInitEvent.WriteStatus st.sync_status_oid
        ZoneSyncState.StateBuildingFullSyncMaps st.num_shards,
      ZoneInitEvent.Unlock st.sync_status_oid st.lock_name st.cookie]

/-! ## Bucket-shard sync status and its initialization
(`rgw_bucket_shard_sync_info`, `RGWInitBucketShardSyncStatusCoroutine`,
lines 1312-1400) -/

/-- `rgw_bucket_shard_sync_info::SyncState`. -/
inductive BucketSyncState where
  | StateInit
  | StateFullSync
  | StateIncrementalSync
deriving DecidableEq, Repr

/-- `rgw_bucket_shard_full_sync_marker`: object-key position plus entry
count. -/
structure rgw_bucket_shard_full_sync_marker where
  position : rgw_obj_key
  count : Nat
deriving DecidableEq, Repr

/-- `rgw_bucket_shard_inc_sync_marker`: opaque bucket-index-log
position. -/
structure rgw_bucket_shard_inc_sync_marker where
  position : String
deriving DecidableEq, Repr

/-- `rgw_bucket_shard_sync_info`. -/
structure rgw_bucket_shard_sync_info where
  state : BucketSyncState
  full_marker : rgw_bucket_shard_full_sync_marker
  inc_marker : rgw_bucket_shard_inc_sync_marker
deriving DecidableEq, Repr

/-- A default-constructed `rgw_bucket_shard_sync_info` (state `Init`,
empty markers) — the value used when the status object is absent
(line 1489) and the value first written by the init coroutine. -/
def bucket_sync_info_default : rgw_bucket_shard_sync_info :=
  ⟨BucketSyncState.StateInit, ⟨⟨"", ""⟩, 0⟩, ⟨""⟩⟩

/-- `RGWBucketSyncStatusManager::status_oid` (lines 2279-2288). -/
def status_oid (source_zone bucket_name bucket_id : String) (shard_id : Int) : String :=
  let oid := "bucket.sync-status." ++ source_zone ++ ":" ++ bucket_name ++ ":" ++ bucket_id
  if shard_id ≥ 0 then oid ++ ":" ++ toString shard_id else oid

/-- Members of `RGWInitBucketShardSyncStatusCoroutine` relevant to
locking (lines 1322-1326). -/
structure RGWInitBucketShardSyncStatusCoroutineState where
  lock_name : String
  cookie : String
  sync_status_oid : String
deriving DecidableEq, Repr

/-- Constructor of `RGWInitBucketShardSyncStatusCoroutine`
(lines 1330-1345).  Exactly as in the zone-init constructor, line 1342
reads `string cookie = buf;`, declaring a local that shadows the member
`cookie`; the member keeps its default-constructed empty value. -/
def mkRGWInitBucketShardSyncStatusCoroutine (source_zone bucket_name bucket_id : String)
    (shard_id : Int) (rand16 : String) : RGWInitBucketShardSyncStatusCoroutineState :=
  let _cookie_local := rand16
  { lock_name := "sync_lock", cookie := "",
    sync_status_oid := status_oid source_zone bucket_name bucket_id shard_id }

/-- Event emitted by the bucket-shard coroutines
(`RGWInitBucketShardSyncStatusCoroutine`, `RGWRunBucketSyncCoroutine`,
`RGWBucketShardFullSyncCR`, `RGWBucketShardIncrementalSyncCR`).
`num_spawned_after` on the spawn/collect events records the value of
`num_spawned()` right after the event took effect. -/
inductive BucketShardEvent where
  | InitLock (oid lock_name cookie : String) (duration : Nat)
  | InitWriteStatus (oid : String) (status : rgw_bucket_shard_sync_info)
  | InitFetchLogInfo
  | InitWriteAttrs (state : BucketSyncState) (inc_position : String)
  | InitUnlock (oid lock_name cookie : String)
  | ReadSyncStatus
  | GetBucketInstanceInfo
  | ListBucketShard (marker : rgw_obj_key)
  | SpawnBucketEntry (key : rgw_obj_key) (op : RGWModifyOp) (versioned_epoch : Nat)
      (num_spawned_after : Nat)
  | CollectChild (num_spawned_after : Nat)
  | DrainChildren
  | WriteStateIncremental
  | ListBilog (marker : String)
  | SpawnBilogEntry (w : IncSyncSpawned) (num_spawned_after : Nat)
deriving DecidableEq, Repr

/-- `RGWInitBucketShardSyncStatusCoroutine::operate` (lines 1347-1399),
success path: lock (30 s) with the member cookie, write a fresh
(default) status, re-lock, fetch the remote bucket-index-log head into
`info` (its `max_marker` is the input `info_max_marker`), set
`state ← StateFullSync` and `inc_marker.position ← info.max_marker`,
write all attrs, unlock.  Returns the events and the status value whose
attrs were written. -/
def initBucketShardSyncStatus_operate (st : RGWInitBucketShardSyncStatusCoroutineState)
    (info_max_marker : String) :
    List BucketShardEvent × rgw_bucket_shard_sync_info :=
  let status₂ := { bucket_sync_info_default with
                   state := BucketSyncState.StateFullSync,
                   inc_marker := ⟨info_max_marker⟩ }
  ([BucketShardEvent.InitLock st.sync_status_oid st.lock_name st.cookie 30,
    BucketShardEvent.InitWriteStatus st.sync_status_oid bucket_sync_info_default,
    BucketShardEvent.InitLock st.sync_status_oid st.lock_name st.cookie 30,
    BucketShardEvent.InitFetchLogInfo,
    BucketShardEvent.InitWriteAttrs status₂.state status₂.inc_marker.position,
    BucketShardEvent.InitUnlock st.sync_status_oid st.lock_name st.cookie],
   status₂)

/-! ## Bucket-shard full and incremental sync
(`RGWBucketShardFullSyncCR::operate`, lines 1899-1972, and
`RGWBucketShardIncrementalSyncCR::operate`, lines 2011-2067)

The remote's answers to the successive listing calls are an input list of
pages, consumed in order; a run that needs one more page than provided
returns `none`.  The cooperative scheduler is modelled by its
worst-case schedule: a spawned child stays outstanding until the parent
explicitly waits for it, and each `wait_for_child()`/`collect` pass
harvests exactly one child.  (Any real schedule harvests at least as
many, so `num_spawned()` in a real run is bounded by its value here.) -/

/-- `BUCKET_SYNC_SPAWN_WINDOW` (line 1857). -/
def BUCKET_SYNC_SPAWN_WINDOW : Nat := 20

/-- One `bucket_list_entry` as consumed by the full-sync loop (fields
read at lines 1926-1934). -/
structure bucket_list_entry where
  key : rgw_obj_key
  versioned_epoch : Nat
  mtime : Nat
deriving DecidableEq, Repr

/-- One page of `bucket_list_result` (fields read at lines 1922, 1947). -/
structure bucket_list_result_page where
  entries : List bucket_list_entry
  is_truncated : Bool
deriving DecidableEq, Repr

/-- The `while ((int)num_spawned() > spawn_window) { yield
wait_for_child(); while (collect(&ret)) ... }` block shared by the two
bucket sync loops (lines 1936-1945 and 2048-2058), under the worst-case
schedule: each pass harvests one child.  Returns the final `num_spawned`
and the collect events. -/
def window_wait : Nat → Nat × List BucketShardEvent
  | 0 => (0, [])
  | Nat.succ n =>
      if Nat.succ n > BUCKET_SYNC_SPAWN_WINDOW then
        let r := window_wait n
        (r.1, BucketShardEvent.CollectChild n :: r.2)
      else (Nat.succ n, [])

/-- The per-entry body of the full-sync loop (lines 1923-1946): bump
`total_entries`, `start` the marker, advance `list_marker`, resolve `op`
from the key's instance (line 1931), spawn the single-entry worker, then
run the spawn-window wait.  Threads `num_spawned`, `total_entries` and
`list_marker`. -/
def bucket_full_sync_entries (n total : Nat) (marker : rgw_obj_key)
    (entries : List bucket_list_entry) :
    Nat × Nat × rgw_obj_key × List BucketShardEvent :=
  match entries with
  | [] => (n, total, marker, [])
  | e :: rest =>
      let total₂ := total + 1
      let op := if e.key.inst = "" ∨ e.key.inst = "null" then RGWModifyOp.CLS_RGW_OP_ADD
                else RGWModifyOp.CLS_RGW_OP_LINK_OLH
      let n₂ := n + 1
      let w := window_wait n₂
      let r := bucket_full_sync_entries w.1 total₂ e.key rest
      (r.1, r.2.1, r.2.2.1,
        BucketShardEvent.SpawnBucketEntry e.key op e.versioned_epoch n₂ :: (w.2 ++ r.2.2.2))

/-- The page loop of `RGWBucketShardFullSyncCR::operate` (lines
1909-1947): list a page at `list_marker`, process its entries, repeat
while `is_truncated`. -/
def bucket_full_sync_pages (n total : Nat) (marker : rgw_obj_key)
    (responses : List bucket_list_result_page) :
    Option (Nat × List BucketShardEvent) :=
  match responses with
  | [] => none
  | page :: rest =>
      let r := bucket_full_sync_entries n total marker page.entries
      let evs := BucketShardEvent.ListBucketShard marker :: r.2.2.2
      if page.is_truncated then
        match bucket_full_sync_pages r.1 r.2.1 r.2.2.1 rest with
        | none => none
        | some (n₃, evs₂) => some (n₃, evs ++ evs₂)
      else some (r.1, evs)

/-- `RGWBucketShardFullSyncCR::operate` (lines 1899-1972), success path:
start from `full_marker.position` and `total_entries =
full_marker.count` (lines 1903, 1908), run the page loop, `drain_all()`,
then write the state attr `StateIncrementalSync` (lines 1949-1963). -/
def bucket_full_sync_operate (full_marker : rgw_bucket_shard_full_sync_marker)
    (responses : List bucket_list_result_page) : Option (List BucketShardEvent) :=
  match bucket_full_sync_pages 0 full_marker.count full_marker.position responses with
  | none => none
  | some (_, evs) =>
      some (evs ++ [BucketShardEvent.DrainChildren, BucketShardEvent.WriteStateIncremental])

/-- The per-entry body of the incremental-sync loop (lines 2034-2058):
dispatch the entry (`incSyncDispatchEntry`), `start` its marker, advance
`inc_marker.position` to `entry.id`, spawn the worker, run the
spawn-window wait. -/
def bucket_inc_sync_entries (n : Nat) (pos : String)
    (entries : List rgw_bi_log_entry) : Nat × String × List BucketShardEvent :=
  match entries with
  | [] => (n, pos, [])
  | e :: rest =>
      let w := incSyncDispatchEntry e
      let n₂ := n + 1
      let ww := window_wait n₂
      let r := bucket_inc_sync_entries ww.1 e.id rest
      (r.1, r.2.1, BucketShardEvent.SpawnBilogEntry w n₂ :: (ww.2 ++ r.2.2))

/-- The page loop of `RGWBucketShardIncrementalSyncCR::operate` (lines
2018-2060): list the bucket index log after `inc_marker.position`,
process the entries, repeat while the listing was non-empty. -/
def bucket_inc_sync_pages (n : Nat) (pos : String)
    (responses : List (List rgw_bi_log_entry)) :
    Option (Nat × List BucketShardEvent) :=
  match responses with
  | [] => none
  | page :: rest =>
      let r := bucket_inc_sync_entries n pos page
      let evs := BucketShardEvent.ListBilog pos :: r.2.2
      if page.isEmpty then some (r.1, evs)
      else
        match bucket_inc_sync_pages r.1 r.2.1 rest with
        | none => none
        | some (n₃, evs₂) => some (n₃, evs ++ evs₂)

/-- `RGWBucketShardIncrementalSyncCR::operate` (lines 2011-2067), success
path: run the page loop from `inc_marker.position`, then
`drain_all()`. -/
def bucket_inc_sync_operate (inc_marker : rgw_bucket_shard_inc_sync_marker)
    (responses : List (List rgw_bi_log_entry)) : Option (List BucketShardEvent) :=
  match bucket_inc_sync_pages 0 inc_marker.position responses with
  | none => none
  | some (_, evs) => some (evs ++ [BucketShardEvent.DrainChildren])

/-- `RGWRunBucketSyncCoroutine::operate` (lines 2069-2155), success path:
read the bucket-shard status (`status₀`; the default value when the
object is absent), fetch the bucket instance info, then run the phases in
order, each followed by the local state bump (lines 2108, 2125): `Init`
runs the init coroutine, `FullSync` runs the full-sync coroutine,
`IncrementalSync` runs the incremental-sync coroutine. -/
def run_bucket_sync_operate (source_zone bucket_name bucket_id : String) (shard_id : Int)
    (rand16 : String) (status₀ : rgw_bucket_shard_sync_info) (info_max_marker : String)
    (full_responses : List bucket_list_result_page)
    (inc_responses : List (List rgw_bi_log_entry)) : Option (List BucketShardEvent) :=
  let evs₀ := [BucketShardEvent.ReadSyncStatus, BucketShardEvent.GetBucketInstanceInfo]
  let init_part :
      List BucketShardEvent × rgw_bucket_shard_sync_info :=
    if status₀.state = BucketSyncState.StateInit then
      let st := mkRGWInitBucketShardSyncStatusCoroutine source_zone bucket_name bucket_id
                  shard_id rand16
      let r := initBucketShardSyncStatus_operate st info_max_marker
      (r.1, { status₀ with state := BucketSyncState.StateFullSync })
    else ([], status₀)
  let status₁ := init_part.2
  let full_part :
      Option (List BucketShardEvent × rgw_bucket_shard_sync_info) :=
    if status₁.state = BucketSyncState.StateFullSync then
      match bucket_full_sync_operate status₁.full_marker full_responses with
      | none => none
      | some evs => some (evs, { status₁ with state := BucketSyncState.StateIncrementalSync })
    else some ([], status₁)
  match full_part with
  | none => none
  | some (fevs, status₂) =>
      let inc_part : Option (List BucketShardEvent) :=
        if status₂.state = BucketSyncState.StateIncrementalSync then
          bucket_inc_sync_operate status₂.inc_marker inc_responses
        else some []
      match inc_part with
      | none => none
      | some ievs => some (evs₀ ++ init_part.1 ++ fevs ++ ievs)

/-! ## Datalog-shard full sync (`RGWDataSyncShardCR::full_sync`,
lines 885-930) -/

/-- `rgw_data_sync_marker::SyncState` (the per-datalog-shard states). -/
inductive SyncMarkerState where
  | FullSync
  | IncrementalSync
deriving DecidableEq, Repr

/-- `rgw_data_sync_marker`: the per-datalog-shard durable marker. -/
structure rgw_data_sync_marker where
  state : SyncMarkerState
  marker : String
  next_step_marker : String
  total_entries : Nat
  pos : Nat
  timestamp : Nat
deriving DecidableEq, Repr

/-- Event emitted by `RGWDataSyncShardCR::full_sync`. -/
inductive ShardEvent where
  | GetOmapKeys (marker : String) (max_entries : Nat)
  | StartMarker (key : String) (total_entries : Nat)
  | SpawnEntry (raw_key entry_marker : String)
  | DrainAll
  | WriteMarker (m : rgw_data_sync_marker)
deriving DecidableEq, Repr

/-- `OMAP_GET_MAX_ENTRIES` (line 886). -/
def OMAP_GET_MAX_ENTRIES : Nat := 100

/-- Lexicographic strict order on character lists (by code point), the
order in which rados stores omap keys. -/
def charsLtb : List Char → List Char → Bool
  | [], [] => false
  | [], _ :: _ => true
  | _ :: _, [] => false
  | a :: as, b :: bs =>
      if a.toNat < b.toNat then true
      else if b.toNat < a.toNat then false
      else charsLtb as bs

/-- Lexicographic strict order on strings (the core `String.lt` is not
kernel-executable, so the omap model uses this equivalent). -/
def strLtb (s t : String) : Bool := charsLtb s.toList t.toList

/-- The per-entry loop of `full_sync` (lines 900-911): for each omap key,
bump `total_entries`, `start` the marker, spawn a single-entry worker
with the key as both `raw_key` and `entry_marker`, and set
`sync_marker.marker` to the key. -/
def full_sync_page (sync_marker : rgw_data_sync_marker) (total_entries : Nat)
    (entries : List String) : rgw_data_sync_marker × Nat × List ShardEvent :=
  match entries with
  | [] => (sync_marker, total_entries, [])
  | k :: rest =>
      let total := total_entries + 1
      let m := { sync_marker with marker := k }
      let r := full_sync_page m total rest
      (r.1, r.2.1,
        ShardEvent.StartMarker k total :: ShardEvent.SpawnEntry k k :: r.2.2)

/-- The page loop of `full_sync` (lines 894-912): read up to
`OMAP_GET_MAX_ENTRIES` omap keys greater than the current marker from
the full-sync index object `omap` (kept sorted by rados), process them,
and repeat while a full page came back.  `fuel` bounds the number of
listing calls; `full_sync` below supplies enough for any input. -/
def full_sync_loop (fuel : Nat) (omap : List String)
    (sync_marker : rgw_data_sync_marker) (total_entries : Nat) :
    Option (rgw_data_sync_marker × Nat × List ShardEvent) :=
  match fuel with
  | 0 => none
  | Nat.succ fuel =>
      let entries := (omap.filter (fun k => strLtb sync_marker.marker k)).take OMAP_GET_MAX_ENTRIES
      let r := full_sync_page sync_marker total_entries entries
      let evs := ShardEvent.GetOmapKeys sync_marker.marker OMAP_GET_MAX_ENTRIES :: r.2.2
      if entries.length = OMAP_GET_MAX_ENTRIES then
        match full_sync_loop fuel omap r.1 r.2.1 with
        | none => none
        | some (m₃, t₃, evs₂) => some (m₃, t₃, evs ++ evs₂)
      else some (r.1, r.2.1, evs)

/-- `RGWDataSyncShardCR::full_sync` (lines 885-930), success path:
`total_entries = sync_marker.pos` (line 893), run the page loop over the
full-sync index, `drain_all()` (line 914), then in one
`RGWSimpleRadosWriteCR` commit the marker with
`state ← IncrementalSync`, `marker ← next_step_marker`,
`next_step_marker` cleared (lines 916-923). -/
def full_sync (omap : List String) (sync_marker : rgw_data_sync_marker) :
    Option (List ShardEvent × rgw_data_sync_marker) :=
  match full_sync_loop (omap.length + 1) omap sync_marker sync_marker.pos with
  | none => none
  | some (m, _t, evs) =>
      let m₂ := { m with state := SyncMarkerState.IncrementalSync,
                         marker := m.next_step_marker,
                         next_step_marker := "" }
      some (evs ++ [ShardEvent.DrainAll, ShardEvent.WriteMarker m₂], m₂)

/-! ## run_sync status phase and the status-read coroutine
(`RGWRemoteDataLog::run_sync`, lines 1130-1159, and
`RGWReadDataSyncStatusCoroutine::handle_data`, lines 82-94) -/

/-- `RGWReadDataSyncStatusCoroutine::handle_data` (lines 82-94): when the
status read returned `-ENOENT` the coroutine propagates that code;
otherwise it spawns a per-shard marker read for every shard and returns
0.  Result: the returned code and the shard ids whose marker reads were
spawned. -/
def readDataSyncStatus_handle_data (retcode : Int) (num_shards : Nat) :
    Int × List Nat :=
  if retcode = -ENOENT then (retcode, [])
  else (0, List.range num_shards)

/-- The status phase of `RGWRemoteDataLog::run_sync` (lines 1134-1141):
run the status read (outcome `read_ret`); when it returned `-ENOENT`,
run `RGWInitDataSyncStatusCoroutine` instead (outcome `init_ret`); fail
only when the resulting `r` is negative. -/
def run_sync_status_phase (read_ret init_ret : Int) : Except Int Unit :=
  let r := read_ret
  let r₂ := if r = -ENOENT then init_ret else r
  if r₂ < 0 then Except.error r₂ else Except.ok ()

/-! ## The wake-up entry points (`RGWRemoteDataLog::wakeup`,
lines 1122-1128, and `RGWDataSyncCR::wakeup`, lines 1111-1119) -/

/-- The wake-up-relevant state of one `RGWDataSyncShardCR`: its
`modified_shards` set and whether its coroutine has been signalled. -/
structure DataSyncShardHandle where
  modified_shards : List String
  wakeup_signalled : Bool
deriving DecidableEq, Repr

/-- The wake-up-relevant state of `RGWDataSyncCR`: the `shard_crs` map
from shard id to shard coroutine. -/
structure DataSyncCRState where
  shard_crs : List (Int × DataSyncShardHandle)
deriving DecidableEq, Repr

/-- `std::map::find` on the `shard_crs` map. -/
def shardFind (m : List (Int × DataSyncShardHandle)) (k : Int) :
    Option DataSyncShardHandle :=
  match m with
  | [] => none
  | (k₁, v₁) :: rest => if k₁ = k then some v₁ else shardFind rest k

/-- `RGWDataSyncShardCR::append_modified_shards` (lines 860-863) followed
by the `wakeup()` signal (line 1118). -/
def appendModifiedShardsAndWakeup (h : DataSyncShardHandle) (keys : List String) :
    DataSyncShardHandle :=
  { modified_shards := h.modified_shards ++ keys, wakeup_signalled := true }

/-- `RGWDataSyncCR::wakeup` (lines 1111-1119): look the shard id up in
`shard_crs`; when absent, return with nothing modified; otherwise append
the keys to that shard's modified set and signal it. -/
def RGWDataSyncCR_wakeup (s : DataSyncCRState) (shard_id : Int)
    (keys : List String) : DataSyncCRState :=
  match shardFind s.shard_crs shard_id with
  | none => s
  | some _ =>
      { shard_crs := s.shard_crs.map (fun p =>
          if p.1 = shard_id then (p.1, appendModifiedShardsAndWakeup p.2 keys) else p) }

/-- The wake-up-relevant state of `RGWRemoteDataLog`: the current
`data_sync_cr` pointer (absent when no data-sync coroutine runs). -/
structure RemoteDataLogState where
  data_sync_cr : Option DataSyncCRState
deriving DecidableEq, Repr

/-- `RGWRemoteDataLog::wakeup` (lines 1122-1128): when `data_sync_cr` is
null, return; otherwise forward to `RGWDataSyncCR::wakeup`. -/
def RGWRemoteDataLog_wakeup (s : RemoteDataLogState) (shard_id : Int)
    (keys : List String) : RemoteDataLogState :=
  match s.data_sync_cr with
  | none => s
  | some cr => { data_sync_cr := some (RGWDataSyncCR_wakeup cr shard_id keys) }

/-! ## Observers and concrete scenarios used by the theorems below -/

/-- Observer: the `num_spawned_after` value recorded on a spawn or
collect event, `none` for every other event. -/
def eventSpawnCount : BucketShardEvent → Option Nat
  | BucketShardEvent.SpawnBucketEntry _ _ _ n => some n
  | BucketShardEvent.SpawnBilogEntry _ n => some n
  | BucketShardEvent.CollectChild n => some n
  | _ => none

/-- C5 scenario: a datalog-shard marker in full sync whose saved
next-step marker is `"NEXT"`. -/
def c5_marker : rgw_data_sync_marker :=
  ⟨SyncMarkerState.FullSync, "", "NEXT", 0, 0, 0⟩

/-- C5 scenario: the run of `full_sync` over a two-key full-sync
index. -/
def c5_run : List ShardEvent × rgw_data_sync_marker :=
  (full_sync ["idx1", "idx2"] c5_marker).getD ([], c5_marker)

/-- C7 scenario: a single listing page carrying 21 unversioned
entries. -/
def c7_entries : List bucket_list_entry := List.replicate 21 ⟨⟨"o", ""⟩, 0, 0⟩

/-- C7 scenario: the full-sync trace over that page. -/
def c7_trace : List BucketShardEvent :=
  (bucket_full_sync_operate ⟨⟨"", ""⟩, 0⟩ [⟨c7_entries, false⟩]).getD []

/-- C7 witness scenario: full-sync trace over a one-entry page. -/
def c7w_ftr : List BucketShardEvent :=
  (bucket_full_sync_operate ⟨⟨"", ""⟩, 0⟩ [⟨[⟨⟨"a", ""⟩, 0, 0⟩], false⟩]).getD []

/-- C7 witness scenario: incremental-sync trace over an empty log. -/
def c7w_itr : List BucketShardEvent :=
  (bucket_inc_sync_operate ⟨""⟩ [[]]).getD []

/-- C6 witness scenario: a full bucket-shard sync run from the absent
(default) status, with an empty bucket and an empty index log. -/
def c6_tr : List BucketShardEvent :=
  (run_bucket_sync_operate "zone1" "b1" "inst-A" 0 "0123456789abcdef"
     bucket_sync_info_default "MM" [⟨[], false⟩] [[]]).getD []

/-- C8 scenario: the spec's delete entry
`{id:"00000123.1", op:Delete, object:"o", instance:"v1", ver:{pool:-1,
epoch:7}}`. -/
def c8_entry : rgw_bi_log_entry :=
  ⟨"00000123.1", "o", "v1", 0, RGWModifyOp.CLS_RGW_OP_DEL, ⟨-1, 7⟩⟩

end RgwDataSync

open RgwDataSync

/-- C1: the claim states that when `index_key_to_marker` is consulted for
an entry whose bucket-shard key already has an in-flight marker it
returns false, so two workers for the same bucket-shard key are never
simultaneously in flight.  The code violates this: the incremental-sync
loop (line 970) passes the arguments swapped — the per-entry-unique log
id as the dedup `key` — so for a datalog page carrying two entries for
the same bucket shard `b1:A:0` the second consultation also returns
`true` and two single-entry workers for `b1:A:0` are spawned and
simultaneously in flight. -/
theorem C1_dedup_keyed_by_log_id :
    (incremental_sync_dispatch emptyTrack [c1_entry1, c1_entry2]).2.1 =
        [⟨"b1:A:0", "1_100.1"⟩, ⟨"b1:A:0", "1_100.2"⟩] ∧
    (incremental_sync_dispatch emptyTrack [c1_entry1, c1_entry2]).2.2 =
        [true, true] := by
  constructor <;> rfl

/-- C2: the claim states that a single-entry worker invoked with op `Add`
and a non-empty non-"null" version instance performs no remote fetch,
completes without error, and *still calls finish on its entry marker*.
The code violates the last part: line 1813 executes `return
set_cr_done()` before the finish yield is ever reached, so the worker
emits *no* calls at all — in particular no `FinishMarker` — and the
entry's marker stays pending in the tracker window forever. -/
theorem C2_versioned_add_skips_finish :
    bucketSyncSingleEntry_operate (T := String) RGWModifyOp.CLS_RGW_OP_ADD
        ⟨"o", "v1"⟩ 3 "00000042.1" 0 0 =
      ([], Except.ok ()) ∧
    BucketSyncCall.FinishMarker (T := String) "00000042.1" ∉
      (bucketSyncSingleEntry_operate (T := String) RGWModifyOp.CLS_RGW_OP_ADD
        ⟨"o", "v1"⟩ 3 "00000042.1" 0 0).1 := by
  constructor
  · rfl
  · intro h
    simp [bucketSyncSingleEntry_operate] at h

/-- C8: for every bucket-index-log entry, the dispatched worker's
`versioned_epoch` equals `entry.ver.epoch` when `entry.ver.pool < 0` and
0 otherwise, and when the entry's op is `Delete`, running the dispatched
worker issues a `RemoveObj` call with exactly that `versioned_epoch`
(whatever outcomes the external calls deliver). -/
theorem C8_versioned_epoch_delete (e : rgw_bi_log_entry)
    (transfer_ret finish_ret : Int) :
    (incSyncDispatchEntry e).versioned_epoch =
        (if e.ver.pool < 0 then e.ver.epoch else 0) ∧
    (e.op = RGWModifyOp.CLS_RGW_OP_DEL →
      BucketSyncCall.RemoveObj ⟨e.object, e.inst⟩ (incSyncDispatchEntry e).versioned_epoch ∈
        (bucketSyncSingleEntry_operate (incSyncDispatchEntry e).op
          (incSyncDispatchEntry e).key (incSyncDispatchEntry e).versioned_epoch
          (incSyncDispatchEntry e).entry_marker transfer_ret finish_ret).1) := by
  refine ⟨rfl, fun hop => ?_⟩
  simp only [incSyncDispatchEntry, bucketSyncSingleEntry_operate, hop]
  repeat' split
  all_goals simp_all

/-- C3 counterexample: the claim states that on a datalog-key parse
failure the single-entry worker fails with error signal `EINVAL`.  At the
concrete key `"b:inst:zz"` (whose shard-id suffix `"zz"` is not an
integer, so `parse_bucket_shard` itself returns `-EINVAL`) the worker
drops the entry but signals `-EIO` (line 765), not `-EINVAL`. -/
theorem C3_counterexample :
    parse_bucket_shard "b:inst:zz" = Except.error (-EINVAL) ∧
    dataSyncSingleEntry_operate "b:inst:zz" "1_100.1" 0 0 =
      ([], Except.error (-EIO_errno)) ∧
    (dataSyncSingleEntry_operate "b:inst:zz" "1_100.1" 0 0).2 ≠
      Except.error (-EINVAL) := by
  refine ⟨rfl, rfl, ?_⟩
  intro h
  rw [show (dataSyncSingleEntry_operate "b:inst:zz" "1_100.1" 0 0).2 =
        Except.error (-EIO_errno) from rfl] at h
  simp [EIO_errno, EINVAL] at h

/-- C3 (amended): when parsing a datalog key fails in the single-entry
dispatcher, the entry is dropped (no bucket sync is invoked, no marker is
finished) and the worker fails with error signal `EIO` — the parse helper
itself returns `-EINVAL`, but the dispatcher signals
`set_cr_error(-EIO)`, which then surfaces as a shard-level error. -/
theorem C3_parse_error_signals_eio (raw_key entry_marker : String)
    (bucket_sync_ret finish_ret : Int) (e : Int)
    (h : parse_bucket_shard raw_key = Except.error e) :
    dataSyncSingleEntry_operate raw_key entry_marker bucket_sync_ret finish_ret =
      ([], Except.error (-EIO_errno)) := by
  unfold dataSyncSingleEntry_operate
  rw [h]

/-- Witness for `C3_parse_error_signals_eio` at the concrete key
`"b:inst:zz"`. -/
theorem C3_parse_error_signals_eio_witness :
    parse_bucket_shard "b:inst:zz" = Except.error (-EINVAL) ∧
    dataSyncSingleEntry_operate "b:inst:zz" "1_100.1" 0 0 =
      ([], Except.error (-EIO_errno)) :=
  ⟨rfl, C3_parse_error_signals_eio "b:inst:zz" "1_100.1" 0 0 (-EINVAL) rfl⟩

/-- C4: the claim states that both sync-status initializations take the
distributed lock with a 30-second duration and a randomly generated
16-character cookie, the same cookie being used for re-lock and unlock.
The code violates the cookie part: in both constructors the statement
`string cookie = buf;` declares a *local* that shadows the member
`cookie`, so the member stays empty and every lock, re-lock and unlock is
issued with the empty cookie (the 30 s duration and the same-cookie
property do hold — trivially, with the empty cookie).  Evaluated here at
the 16-character random string `"0123456789abcdef"`. -/
theorem C4_lock_cookie_is_empty :
    (mkRGWInitDataSyncStatusCoroutine "zone1" 1 "0123456789abcdef").cookie = "" ∧
    (mkRGWInitBucketShardSyncStatusCoroutine "zone1" "b1" "inst-A" 0
        "0123456789abcdef").cookie = "" ∧
    ("0123456789abcdef".length = 16 ∧
      (mkRGWInitDataSyncStatusCoroutine "zone1" 1 "0123456789abcdef").cookie.length ≠ 16) ∧
    initDataSyncStatus_operate
        (mkRGWInitDataSyncStatusCoroutine "zone1" 1 "0123456789abcdef")
        (fun _ => ⟨"mk1", 7⟩) =
      [ZoneInitEvent.Lock "datalog.sync-status.zone1" "sync_lock" "" 30,
       ZoneInitEvent.WriteStatus "datalog.sync-status.zone1" ZoneSyncState.StateInit 1,
       ZoneInitEvent.Lock "datalog.sync-status.zone1" "sync_lock" "" 30,
       ZoneInitEvent.ReadRemoteShardInfo 0,
       ZoneInitEvent.WriteShardMarker 0 "mk1" 7,
       ZoneInitEvent.WriteStatus "datalog.sync-status.zone1"
         ZoneSyncState.StateBuildingFullSyncMaps 1,
       ZoneInitEvent.Unlock "datalog.sync-status.zone1" "sync_lock" ""] ∧
    (initBucketShardSyncStatus_operate
        (mkRGWInitBucketShardSyncStatusCoroutine "zone1" "b1" "inst-A" 0
          "0123456789abcdef") "MM").1 =
      [BucketShardEvent.InitLock "bucket.sync-status.zone1:b1:inst-A:0" "sync_lock" "" 30,
       BucketShardEvent.InitWriteStatus "bucket.sync-status.zone1:b1:inst-A:0"
         bucket_sync_info_default,
       BucketShardEvent.InitLock "bucket.sync-status.zone1:b1:inst-A:0" "sync_lock" "" 30,
       BucketShardEvent.InitFetchLogInfo,
       BucketShardEvent.InitWriteAttrs BucketSyncState.StateFullSync "MM",
       BucketShardEvent.InitUnlock "bucket.sync-status.zone1:b1:inst-A:0" "sync_lock" ""] := by
  refine ⟨rfl, rfl, ⟨rfl, by decide⟩, rfl, rfl⟩

/-- C9: when the zone sync-status read returns the not-found sentinel
(`-ENOENT`), `run_sync` runs the full initialization instead of
propagating an error: the phase succeeds whenever the initialization
succeeds, only an initialization failure is reported upward, and the
status-read coroutine itself propagates the `-ENOENT` sentinel unchanged
(spawning no per-shard marker reads). -/
theorem C9_enoent_triggers_init (init_ret : Int) (num_shards : Nat) :
    run_sync_status_phase (-ENOENT) init_ret =
      (if init_ret < 0 then Except.error init_ret else Except.ok ()) ∧
    run_sync_status_phase (-ENOENT) 0 = Except.ok () ∧
    readDataSyncStatus_handle_data (-ENOENT) num_shards = (-ENOENT, []) := by
  refine ⟨?_, rfl, by simp [readDataSyncStatus_handle_data]⟩
  simp [run_sync_status_phase]

/-- C10: calling the wake-up entry point when no data-sync coroutine is
running, or with a shard id that is not registered in the `shard_crs`
map, returns the state entirely unchanged: no shard's modified-shards
set changes and no shard is signalled. -/
theorem C10_wakeup_frame :
    (∀ (shard_id : Int) (keys : List String),
        RGWRemoteDataLog_wakeup ⟨none⟩ shard_id keys = ⟨none⟩) ∧
    (∀ (cr : DataSyncCRState) (shard_id : Int) (keys : List String),
        shardFind cr.shard_crs shard_id = none →
        RGWRemoteDataLog_wakeup ⟨some cr⟩ shard_id keys = ⟨some cr⟩) := by
  refine ⟨fun shard_id keys => rfl, fun cr shard_id keys h => ?_⟩
  simp [RGWRemoteDataLog_wakeup, RGWDataSyncCR_wakeup, h]

/-- Witness for `C10_wakeup_frame`: a concrete state holding only shard 0
is unchanged by a wake-up for the unregistered shard 5. -/
theorem C10_wakeup_frame_witness :
    shardFind (DataSyncCRState.mk [(0, ⟨[], false⟩)]).shard_crs 5 = none ∧
    RGWRemoteDataLog_wakeup ⟨some ⟨[(0, ⟨[], false⟩)]⟩⟩ 5 ["b2:B:0"] =
      ⟨some ⟨[(0, ⟨[], false⟩)]⟩⟩ :=
  ⟨rfl, C10_wakeup_frame.2 ⟨[(0, ⟨[], false⟩)]⟩ 5 ["b2:B:0"] rfl⟩

/-- Helper: the per-entry loop of the datalog-shard full sync preserves
`state`, `next_step_marker` and `pos` of the threaded marker and emits
neither a drain nor a marker write. -/
theorem full_sync_page_spec (entries : List String) (m : rgw_data_sync_marker)
    (total : Nat) :
    (full_sync_page m total entries).1.state = m.state ∧
    (full_sync_page m total entries).1.next_step_marker = m.next_step_marker ∧
    (full_sync_page m total entries).1.pos = m.pos ∧
    ∀ e ∈ (full_sync_page m total entries).2.2,
      e ≠ ShardEvent.DrainAll ∧ ∀ x, e ≠ ShardEvent.WriteMarker x := by
  induction entries generalizing m total with
  | nil =>
      refine ⟨rfl, rfl, rfl, ?_⟩
      intro e he
      simp [full_sync_page] at he
  | cons k rest ih =>
      have h := ih { m with marker := k } (total + 1)
      refine ⟨h.1, h.2.1, h.2.2.1, ?_⟩
      intro e he
      simp only [full_sync_page, List.mem_cons] at he
      rcases he with rfl | rfl | he
      · exact ⟨by simp, fun x => by simp⟩
      · exact ⟨by simp, fun x => by simp⟩
      · exact h.2.2.2 e he

/-- Helper: the page loop of the datalog-shard full sync preserves
`state`, `next_step_marker` and `pos` and emits neither a drain nor a
marker write. -/
theorem full_sync_loop_spec (fuel : Nat) (omap : List String)
    (m : rgw_data_sync_marker) (total : Nat)
    (out : rgw_data_sync_marker × Nat × List ShardEvent)
    (h : full_sync_loop fuel omap m total = some out) :
    out.1.state = m.state ∧ out.1.next_step_marker = m.next_step_marker ∧
    out.1.pos = m.pos ∧
    ∀ e ∈ out.2.2, e ≠ ShardEvent.DrainAll ∧ ∀ x, e ≠ ShardEvent.WriteMarker x := by
  induction fuel generalizing m total out with
  | zero => simp [full_sync_loop] at h
  | succ fuel ih =>
      rw [full_sync_loop] at h
      have hp := full_sync_page_spec
        ((omap.filter (fun k => strLtb m.marker k)).take OMAP_GET_MAX_ENTRIES) m total
      split at h
      · -- a full page came back: recurse
        rcases heq : full_sync_loop fuel omap
            (full_sync_page m total
              ((omap.filter (fun k => strLtb m.marker k)).take OMAP_GET_MAX_ENTRIES)).1
            (full_sync_page m total
              ((omap.filter (fun k => strLtb m.marker k)).take OMAP_GET_MAX_ENTRIES)).2.1 with
          _ | ⟨m₃, t₃, evs₂⟩
        · rw [heq] at h; exact absurd h (by simp)
        · rw [heq] at h
          have hr := ih _ _ _ heq
          simp only [Option.some.injEq] at h
          subst h
          refine ⟨hr.1.trans hp.1, hr.2.1.trans hp.2.1, hr.2.2.1.trans hp.2.2.1, ?_⟩
          intro e he
          simp only [List.cons_append, List.mem_cons, List.mem_append] at he
          rcases he with rfl | he | he
          · exact ⟨by simp, fun x => by simp⟩
          · exact hp.2.2.2 e he
          · exact hr.2.2.2 e he
      · -- short page: stop
        simp only [Option.some.injEq] at h
        subst h
        refine ⟨hp.1, hp.2.1, hp.2.2.1, ?_⟩
        intro e he
        simp only [List.mem_cons] at he
        rcases he with rfl | he
        · exact ⟨by simp, fun x => by simp⟩
        · exact hp.2.2.2 e he

/-- C5: for every datalog shard, when the full-sync enumeration of the
full-sync index is exhausted (a terminating run of `full_sync`), the
trace first drains all outstanding children and then performs a single
committed marker write — the only marker write the shard coroutine
itself emits — whose value has `state = IncrementalSync`,
`marker = ` the previously saved `next_step_marker`, and
`next_step_marker` cleared. -/
theorem C5_full_sync_transition (omap : List String) (m : rgw_data_sync_marker)
    (tr : List ShardEvent) (m₂ : rgw_data_sync_marker)
    (h : full_sync omap m = some (tr, m₂)) :
    m₂.state = SyncMarkerState.IncrementalSync ∧
    m₂.marker = m.next_step_marker ∧
    m₂.next_step_marker = "" ∧
    ∃ pre, tr = pre ++ [ShardEvent.DrainAll, ShardEvent.WriteMarker m₂] ∧
      ∀ e ∈ pre, e ≠ ShardEvent.DrainAll ∧ ∀ x, e ≠ ShardEvent.WriteMarker x := by
  rw [full_sync] at h
  rcases heq : full_sync_loop (omap.length + 1) omap m m.pos with _ | ⟨mv, tv, evs⟩
  · rw [heq] at h; exact absurd h (by simp)
  · rw [heq] at h
    have hs := full_sync_loop_spec _ _ _ _ _ heq
    simp only [Option.some.injEq, Prod.mk.injEq] at h
    obtain ⟨htr, hm⟩ := h
    subst hm
    refine ⟨rfl, ?_, rfl, evs, htr.symm, hs.2.2.2⟩
    exact hs.2.1

/-- Witness for `C5_full_sync_transition`: the two-key index scenario
`c5_run` terminates and its final marker is exactly the transition
value. -/
theorem C5_full_sync_transition_witness :
    full_sync ["idx1", "idx2"] c5_marker = some (c5_run.1, c5_run.2) ∧
    c5_run.2.state = SyncMarkerState.IncrementalSync ∧
    c5_run.2.marker = c5_marker.next_step_marker ∧
    c5_run.2.next_step_marker = "" := by
  have h : full_sync ["idx1", "idx2"] c5_marker = some (c5_run.1, c5_run.2) := rfl
  have hc := C5_full_sync_transition ["idx1", "idx2"] c5_marker c5_run.1 c5_run.2 h
  exact ⟨h, hc.1, hc.2.1, hc.2.2.1⟩

/-- C6: every run of bucket-shard sync-status initialization (here: a
bucket-shard sync run starting from the absent/default status) fetches
the peer's bucket-index-log head `max_marker` and writes a status whose
`inc_marker.position` equals that `max_marker` and whose state is
`FullSync`, and this write happens before any full-sync listing work
(`ListBucketShard` / `ListBilog`) begins. -/
theorem C6_init_captures_inc_marker
    (source_zone bucket_name bucket_id : String) (shard_id : Int) (rand16 : String)
    (info_max_marker : String)
    (full_responses : List bucket_list_result_page)
    (inc_responses : List (List rgw_bi_log_entry))
    (tr : List BucketShardEvent)
    (h : run_bucket_sync_operate source_zone bucket_name bucket_id shard_id rand16
           bucket_sync_info_default info_max_marker full_responses inc_responses = some tr) :
    (initBucketShardSyncStatus_operate
        (mkRGWInitBucketShardSyncStatusCoroutine source_zone bucket_name bucket_id
          shard_id rand16) info_max_marker).2.state = BucketSyncState.StateFullSync ∧
    (initBucketShardSyncStatus_operate
        (mkRGWInitBucketShardSyncStatusCoroutine source_zone bucket_name bucket_id
          shard_id rand16) info_max_marker).2.inc_marker.position = info_max_marker ∧
    ∃ t₁ t₂,
      tr = t₁ ++ BucketShardEvent.InitWriteAttrs BucketSyncState.StateFullSync
             info_max_marker :: t₂ ∧
      ∀ e ∈ t₁, (∀ mk, e ≠ BucketShardEvent.ListBucketShard mk) ∧
                (∀ ms, e ≠ BucketShardEvent.ListBilog ms) := by
  refine ⟨rfl, rfl, ?_⟩
  rcases hf : bucket_full_sync_operate ⟨⟨"", ""⟩, 0⟩ full_responses with _ | fevs
  · rw [run_bucket_sync_operate] at h
    simp [bucket_sync_info_default, initBucketShardSyncStatus_operate,
          mkRGWInitBucketShardSyncStatusCoroutine, hf] at h
  · rcases hi : bucket_inc_sync_operate ⟨""⟩ inc_responses with _ | ievs
    · rw [run_bucket_sync_operate] at h
      simp [bucket_sync_info_default, initBucketShardSyncStatus_operate,
            mkRGWInitBucketShardSyncStatusCoroutine, hf, hi] at h
    · rw [run_bucket_sync_operate] at h
      simp [bucket_sync_info_default, initBucketShardSyncStatus_operate,
            mkRGWInitBucketShardSyncStatusCoroutine, hf, hi] at h
      subst h
      refine ⟨[BucketShardEvent.ReadSyncStatus, BucketShardEvent.GetBucketInstanceInfo,
               BucketShardEvent.InitLock
                 (status_oid source_zone bucket_name bucket_id shard_id) "sync_lock" "" 30,
               BucketShardEvent.InitWriteStatus
                 (status_oid source_zone bucket_name bucket_id shard_id)
                 bucket_sync_info_default,
               BucketShardEvent.InitLock
                 (status_oid source_zone bucket_name bucket_id shard_id) "sync_lock" "" 30,
               BucketShardEvent.InitFetchLogInfo],
              BucketShardEvent.InitUnlock
                (status_oid source_zone bucket_name bucket_id shard_id) "sync_lock" ""
                :: (fevs ++ ievs), ?_, ?_⟩
      · simp [bucket_sync_info_default]
      · intro e he
        simp only [List.mem_cons, List.mem_singleton] at he
        rcases he with rfl | rfl | rfl | rfl | rfl | rfl | he
        · exact ⟨fun mk => by simp, fun ms => by simp⟩
        · exact ⟨fun mk => by simp, fun ms => by simp⟩
        · exact ⟨fun mk => by simp, fun ms => by simp⟩
        · exact ⟨fun mk => by simp, fun ms => by simp⟩
        · exact ⟨fun mk => by simp, fun ms => by simp⟩
        · exact ⟨fun mk => by simp, fun ms => by simp⟩
        · cases he

/-- Witness for `C6_init_captures_inc_marker`: the concrete run `c6_tr`
(empty bucket, empty index log) terminates and the theorem's first two
conclusions hold at that input. -/
theorem C6_init_captures_inc_marker_witness :
    run_bucket_sync_operate "zone1" "b1" "inst-A" 0 "0123456789abcdef"
        bucket_sync_info_default "MM" [⟨[], false⟩] [[]] = some c6_tr ∧
    (initBucketShardSyncStatus_operate
        (mkRGWInitBucketShardSyncStatusCoroutine "zone1" "b1" "inst-A" 0
          "0123456789abcdef") "MM").2.state = BucketSyncState.StateFullSync ∧
    (initBucketShardSyncStatus_operate
        (mkRGWInitBucketShardSyncStatusCoroutine "zone1" "b1" "inst-A" 0
          "0123456789abcdef") "MM").2.inc_marker.position = "MM" := by
  have h : run_bucket_sync_operate "zone1" "b1" "inst-A" 0 "0123456789abcdef"
      bucket_sync_info_default "MM" [⟨[], false⟩] [[]] = some c6_tr := rfl
  have hc := C6_init_captures_inc_marker "zone1" "b1" "inst-A" 0 "0123456789abcdef"
    "MM" [⟨[], false⟩] [[]] c6_tr h
  exact ⟨h, hc.1, hc.2.1⟩

/-- Helper: the spawn-window wait always brings `num_spawned` back to at
most the window. -/
theorem window_wait_fst_le (n : Nat) :
    (window_wait n).1 ≤ BUCKET_SYNC_SPAWN_WINDOW := by
  induction n with
  | zero => simp [window_wait, BUCKET_SYNC_SPAWN_WINDOW]
  | succ n ih =>
      rw [window_wait]
      split
      · simpa using ih
      · rename_i hle
        simpa using Nat.le_of_not_lt hle

/-- Helper: every collect event emitted by the spawn-window wait records
a `num_spawned` value strictly below the entry value. -/
theorem window_wait_events_lt (n : Nat) :
    ∀ e ∈ (window_wait n).2, ∀ m, eventSpawnCount e = some m → m < n := by
  induction n with
  | zero => intro e he; simp [window_wait] at he
  | succ n ih =>
      intro e he m hm
      rw [window_wait] at he
      split at he
      · simp only [List.mem_cons] at he
        rcases he with rfl | he
        · simp only [eventSpawnCount, Option.some.injEq] at hm
          omega
        · exact Nat.lt_succ_of_lt (ih e he m hm)
      · simp at he

/-- Helper: starting with at most `BUCKET_SYNC_SPAWN_WINDOW` outstanding
children, the full-sync per-entry loop keeps every recorded
`num_spawned` value at or below `BUCKET_SYNC_SPAWN_WINDOW + 1` and
returns with at most `BUCKET_SYNC_SPAWN_WINDOW` outstanding. -/
theorem bucket_full_sync_entries_bound (entries : List bucket_list_entry)
    (n total : Nat) (marker : rgw_obj_key) (hn : n ≤ BUCKET_SYNC_SPAWN_WINDOW) :
    (bucket_full_sync_entries n total marker entries).1 ≤ BUCKET_SYNC_SPAWN_WINDOW ∧
    ∀ e ∈ (bucket_full_sync_entries n total marker entries).2.2.2, ∀ m,
      eventSpawnCount e = some m → m ≤ BUCKET_SYNC_SPAWN_WINDOW + 1 := by
  induction entries generalizing n total marker with
  | nil =>
      refine ⟨hn, ?_⟩
      intro e he
      simp [bucket_full_sync_entries] at he
  | cons a rest ih =>
      have hw := window_wait_fst_le (n + 1)
      have h2 := ih (window_wait (n + 1)).1 (total + 1) a.key hw
      refine ⟨h2.1, ?_⟩
      intro e he m hm
      simp only [bucket_full_sync_entries, List.mem_cons, List.mem_append] at he
      rcases he with rfl | he | he
      · simp only [eventSpawnCount, Option.some.injEq] at hm
        omega
      · have := window_wait_events_lt (n + 1) e he m hm
        omega
      · exact h2.2 e he m hm

/-- Helper: the bound propagated through the full-sync page loop. -/
theorem bucket_full_sync_pages_bound (responses : List bucket_list_result_page)
    (n total : Nat) (marker : rgw_obj_key)
    (out : Nat × List BucketShardEvent)
    (hn : n ≤ BUCKET_SYNC_SPAWN_WINDOW)
    (h : bucket_full_sync_pages n total marker responses = some out) :
    ∀ e ∈ out.2, ∀ m, eventSpawnCount e = some m →
      m ≤ BUCKET_SYNC_SPAWN_WINDOW + 1 := by
  induction responses generalizing n total marker out with
  | nil => simp [bucket_full_sync_pages] at h
  | cons page rest ih =>
      rw [bucket_full_sync_pages] at h
      have hent := bucket_full_sync_entries_bound page.entries n total marker hn
      split at h
      · rcases heq : bucket_full_sync_pages
            (bucket_full_sync_entries n total marker page.entries).1
            (bucket_full_sync_entries n total marker page.entries).2.1
            (bucket_full_sync_entries n total marker page.entries).2.2.1 rest with
          _ | out₂
        · rw [heq] at h; exact absurd h (by simp)
        · rw [heq] at h
          have hr := ih _ _ _ _ hent.1 heq
          simp only [Option.some.injEq] at h
          subst h
          intro e he m hm
          simp only [List.cons_append, List.mem_cons, List.mem_append] at he
          rcases he with rfl | he | he
          · simp [eventSpawnCount] at hm
          · exact hent.2 e he m hm
          · exact hr e he m hm
      · simp only [Option.some.injEq] at h
        subst h
        intro e he m hm
        simp only [List.mem_cons] at he
        rcases he with rfl | he
        · simp [eventSpawnCount] at hm
        · exact hent.2 e he m hm

/-- Helper: starting with at most `BUCKET_SYNC_SPAWN_WINDOW` outstanding
children, the incremental-sync per-entry loop keeps every recorded
`num_spawned` value at or below `BUCKET_SYNC_SPAWN_WINDOW + 1` and
returns with at most `BUCKET_SYNC_SPAWN_WINDOW` outstanding. -/
theorem bucket_inc_sync_entries_bound (entries : List rgw_bi_log_entry)
    (n : Nat) (pos : String) (hn : n ≤ BUCKET_SYNC_SPAWN_WINDOW) :
    (bucket_inc_sync_entries n pos entries).1 ≤ BUCKET_SYNC_SPAWN_WINDOW ∧
    ∀ e ∈ (bucket_inc_sync_entries n pos entries).2.2, ∀ m,
      eventSpawnCount e = some m → m ≤ BUCKET_SYNC_SPAWN_WINDOW + 1 := by
  induction entries generalizing n pos with
  | nil =>
      refine ⟨hn, ?_⟩
      intro e he
      simp [bucket_inc_sync_entries] at he
  | cons a rest ih =>
      have hw := window_wait_fst_le (n + 1)
      have h2 := ih (window_wait (n + 1)).1 a.id hw
      refine ⟨h2.1, ?_⟩
      intro e he m hm
      simp only [bucket_inc_sync_entries, List.mem_cons, List.mem_append] at he
      rcases he with rfl | he | he
      · simp only [eventSpawnCount, Option.some.injEq] at hm
        omega
      · have := window_wait_events_lt (n + 1) e he m hm
        omega
      · exact h2.2 e he m hm

/-- Helper: the bound propagated through the incremental-sync page
loop. -/
theorem bucket_inc_sync_pages_bound (responses : List (List rgw_bi_log_entry))
    (n : Nat) (pos : String) (out : Nat × List BucketShardEvent)
    (hn : n ≤ BUCKET_SYNC_SPAWN_WINDOW)
    (h : bucket_inc_sync_pages n pos responses = some out) :
    ∀ e ∈ out.2, ∀ m, eventSpawnCount e = some m →
      m ≤ BUCKET_SYNC_SPAWN_WINDOW + 1 := by
  induction responses generalizing n pos out with
  | nil => simp [bucket_inc_sync_pages] at h
  | cons page rest ih =>
      rw [bucket_inc_sync_pages] at h
      have hent := bucket_inc_sync_entries_bound page n pos hn
      split at h
      · simp only [Option.some.injEq] at h
        subst h
        intro e he m hm
        simp only [List.mem_cons] at he
        rcases he with rfl | he
        · simp [eventSpawnCount] at hm
        · exact hent.2 e he m hm
      · rcases heq : bucket_inc_sync_pages (bucket_inc_sync_entries n pos page).1
            (bucket_inc_sync_entries n pos page).2.1 rest with _ | out₂
        · rw [heq] at h; exact absurd h (by simp)
        · rw [heq] at h
          have hr := ih _ _ _ hent.1 heq
          simp only [Option.some.injEq] at h
          subst h
          intro e he m hm
          simp only [List.cons_append, List.mem_cons, List.mem_append] at he
          rcases he with rfl | he | he
          · simp [eventSpawnCount] at hm
          · exact hent.2 e he m hm
          · exact hr e he m hm

/-- C7 counterexample: the claim states that during bucket-shard full
sync with spawn window 20 at most 20 single-entry workers are spawned
and uncollected at any point.  On a listing page with 21 entries the
code spawns the 21st worker *before* entering the window wait (lines
1925-1936), so the trace contains a spawn event at which 21 workers are
simultaneously outstanding. -/
theorem C7_counterexample :
    BucketShardEvent.SpawnBucketEntry ⟨"o", ""⟩ RGWModifyOp.CLS_RGW_OP_ADD 0 21 ∈
      c7_trace ∧
    BUCKET_SYNC_SPAWN_WINDOW = 20 := by
  constructor
  · decide
  · rfl

/-- C7 (amended): during bucket-shard full sync and bucket-shard
incremental sync with spawn window 20, the number of simultaneously
spawned, uncollected single-entry workers is at most 21 (= window + 1):
the spawn-window check runs only after each spawn, so the count exceeds
20 by exactly one worker, transiently, between a spawn and the
subsequent wait-for-child. -/
theorem C7_window_bound
    (full_marker : rgw_bucket_shard_full_sync_marker)
    (full_responses : List bucket_list_result_page)
    (inc_marker : rgw_bucket_shard_inc_sync_marker)
    (inc_responses : List (List rgw_bi_log_entry))
    (ftr itr : List BucketShardEvent)
    (hf : bucket_full_sync_operate full_marker full_responses = some ftr)
    (hi : bucket_inc_sync_operate inc_marker inc_responses = some itr) :
    (∀ e ∈ ftr, ∀ m, eventSpawnCount e = some m →
        m ≤ BUCKET_SYNC_SPAWN_WINDOW + 1) ∧
    (∀ e ∈ itr, ∀ m, eventSpawnCount e = some m →
        m ≤ BUCKET_SYNC_SPAWN_WINDOW + 1) := by
  constructor
  · rw [bucket_full_sync_operate] at hf
    rcases heq : bucket_full_sync_pages 0 full_marker.count full_marker.position
        full_responses with _ | out
    · rw [heq] at hf; exact absurd hf (by simp)
    · rw [heq] at hf
      have hb := bucket_full_sync_pages_bound full_responses 0 full_marker.count
        full_marker.position out (by simp [BUCKET_SYNC_SPAWN_WINDOW]) heq
      simp only [Option.some.injEq] at hf
      subst hf
      intro e he m hm
      simp only [List.mem_append, List.mem_cons] at he
      rcases he with he | rfl | rfl | he
      · exact hb e he m hm
      · simp [eventSpawnCount] at hm
      · simp [eventSpawnCount] at hm
      · cases he
  · rw [bucket_inc_sync_operate] at hi
    rcases heq : bucket_inc_sync_pages 0 inc_marker.position inc_responses with _ | out
    · rw [heq] at hi; exact absurd hi (by simp)
    · rw [heq] at hi
      have hb := bucket_inc_sync_pages_bound inc_responses 0 inc_marker.position out
        (by simp [BUCKET_SYNC_SPAWN_WINDOW]) heq
      simp only [Option.some.injEq] at hi
      subst hi
      intro e he m hm
      simp only [List.mem_append, List.mem_cons] at he
      rcases he with he | rfl | he
      · exact hb e he m hm
      · simp [eventSpawnCount] at hm
      · cases he

/-- Witness for `C7_window_bound`: the concrete one-entry full-sync run
and empty incremental run terminate, and the bound instantiated at the
run's own spawn event gives 1 ≤ 21. -/
theorem C7_window_bound_witness :
    bucket_full_sync_operate ⟨⟨"", ""⟩, 0⟩ [⟨[⟨⟨"a", ""⟩, 0, 0⟩], false⟩] =
      some c7w_ftr ∧
    bucket_inc_sync_operate ⟨""⟩ [[]] = some c7w_itr ∧
    BucketShardEvent.SpawnBucketEntry ⟨"a", ""⟩ RGWModifyOp.CLS_RGW_OP_ADD 0 1 ∈
      c7w_ftr ∧
    1 ≤ BUCKET_SYNC_SPAWN_WINDOW + 1 := by
  have hf : bucket_full_sync_operate ⟨⟨"", ""⟩, 0⟩ [⟨[⟨⟨"a", ""⟩, 0, 0⟩], false⟩] =
      some c7w_ftr := rfl
  have hi : bucket_inc_sync_operate ⟨""⟩ [[]] = some c7w_itr := rfl
  have hm : BucketShardEvent.SpawnBucketEntry ⟨"a", ""⟩ RGWModifyOp.CLS_RGW_OP_ADD 0 1 ∈
      c7w_ftr := by decide
  exact ⟨hf, hi, hm,
    (C7_window_bound ⟨⟨"", ""⟩, 0⟩ [⟨[⟨⟨"a", ""⟩, 0, 0⟩], false⟩] ⟨""⟩ [[]]
      c7w_ftr c7w_itr hf hi).1 _ hm 1 rfl⟩

/-- Witness for `C8_versioned_epoch_delete` at the spec's delete entry:
`ver.pool = -1 < 0`, so the worker's `versioned_epoch` is 7 and its run
issues a `RemoveObj` call with `versioned_epoch = 7`. -/
theorem C8_versioned_epoch_delete_witness :
    c8_entry.op = RGWModifyOp.CLS_RGW_OP_DEL ∧
    (incSyncDispatchEntry c8_entry).versioned_epoch = 7 ∧
    BucketSyncCall.RemoveObj ⟨c8_entry.object, c8_entry.inst⟩
        (incSyncDispatchEntry c8_entry).versioned_epoch ∈
      (bucketSyncSingleEntry_operate (incSyncDispatchEntry c8_entry).op
        (incSyncDispatchEntry c8_entry).key
        (incSyncDispatchEntry c8_entry).versioned_epoch
        (incSyncDispatchEntry c8_entry).entry_marker 0 0).1 :=
  ⟨rfl, rfl, (C8_versioned_epoch_delete c8_entry 0 0).2 rfl⟩
